import Mathlib

/-!
A verification development for `src/main.py` (the "Jarvis-lite Chatbot"):
a FastAPI service with an in-memory TTL cache (`set_cache` / `get_cache`),
a rule-based local responder (`local_responder`), an optional OpenAI-backed
remote responder (`openai_responder`), the response orchestrator
(`generate_response`) and the `POST /chat` handler (`chat`).

Modelling conventions of the shallow embedding:
- Time is an explicit integer instant (`now : Int`) threaded into each
  operation in place of the code reading `time.time()`; within one request
  the clock is taken as constant.
- The process-global `CACHE` dictionary becomes an explicit value of type
  `Cache` (a total function from keys to optional `(value, expiry)` pairs)
  passed in and returned by every operation that may touch it.
- The network layer of `openai_responder` is abstracted: the HTTP status
  and the optional extracted nested text field are parameters; a raised
  Python exception is `Except.error`, an ordinary return is `Except.ok`.
- Python string operations `strip` / `lower` are modelled on the character
  list (`pyStrip` / `pyLower`; ASCII whitespace and ASCII case mapping, which
  cover every character the embedded rules test), substring containment
  `needle in hay` is `containsSub`, and truthiness of `Optional[str]`
  (where both `None` and the empty string are falsy) is `pyTruthy`.
- The 12-second deadline guard (`asyncio.wait_for`, HTTP 504) and the
  generic exception handler (HTTP 500) in `chat` guard real elapsed time and
  raised exceptions; in this total, timeless model neither can fire, so
  `chat` returns either HTTP 400 or a successful reply.
-/

namespace JarvisLite

/-- The in-memory cache `CACHE: Dict[str, Tuple[str, float]]`
(line 27): a mapping from question to optional (answer, expiry_timestamp). -/
def Cache : Type :=
  String → Option (String × Int)

/-- Line 28: `CACHE_TTL = int(os.getenv("CACHE_TTL_SECONDS", "60"))`,
with its default value 60. -/
def CACHE_TTL : Int :=
  60

/-- Lines 31-32, `set_cache(key, value, ttl)`:
`CACHE[key] = (value, time.time() + ttl)`. -/
def set_cache (cache : Cache) (now : Int) (key value : String) (ttl : Int) : Cache :=
  fun k => if k = key then some (value, now + ttl) else cache k

/-- Lines 35-43, `get_cache(key)`: returns `None` when the key is absent;
deletes the entry and returns `None` when `time.time() > expiry`; otherwise
returns the stored value. The possibly-updated cache is returned alongside
the Python return value. -/
def get_cache (cache : Cache) (now : Int) (key : String) : Option String × Cache :=
  match cache key with
  | none => (none, cache)
  | some (value, expiry) =>
    if now > expiry then (none, fun k => if k = key then none else cache k)
    else (some value, cache)

/-- The ASCII whitespace characters removed by Python `str.strip()`
(the messages the embedded rules inspect contain no exotic Unicode spaces). -/
def pyWhitespace (c : Char) : Bool :=
  c = ' ' || c = '\t' || c = '\n' || c = '\r' || c = '\x0b' || c = '\x0c'

/-- Python `str.strip()` on the character list: drop leading and trailing
whitespace. -/
def pyStrip (l : List Char) : List Char :=
  ((l.dropWhile pyWhitespace).reverse.dropWhile pyWhitespace).reverse

/-- Python `str.lower()` on the character list (ASCII case mapping; the
mojibake Bengali text stored in this source file is unaffected). -/
def pyLower (l : List Char) : List Char :=
  l.map Char.toLower

/-- Python substring containment `needle in hay`. -/
def containsSub (needle hay : List Char) : Bool :=
  decide (needle <:+: hay)

/-- Python truthiness of an `Optional[str]`: `None` and `""` are falsy. -/
def pyTruthy : Option String → Bool
  | none => false
  | some s => s != ""

/-- String literal of `src/main.py` line 50: the fixed "didn't hear anything" reply (the file stores these exact
code points; non-ASCII ones are written as escapes). -/
def emptyReplyText : String :=
  "\u00e0\u00a6\u2022\u00e0\u00a6\u00bf\u00e0\u00a6\u203a\u00e0\u00a7\u00e0\u00a6\u2022\u00e0\u00a6\u00bf \u00e0\u00a6\u00ac\u00e0\u00a6\u00b2, \u00e0\u00a6\u2020\u00e0\u00a6\u00ae\u00e0\u00a6\u00bf \u00e0\u00a6\u00b6\u00e0\u00a7\u00e0\u00a6\u00a8\u00e0\u00a6\u00bf\u00e0\u00a6\u00a8\u00e0\u00a6\u00bf :P"

/-- String literal of `src/main.py` line 51: the first (Bengali) greeting token (the file stores these exact
code points; non-ASCII ones are written as escapes). -/
def greetTokenBn : String :=
  "\u00e0\u00a6\u00b9\u00e0\u00a6\u00be\u00e0\u00a6\u2021"

/-- String literal of `src/main.py` line 52: the fixed greeting reply (the file stores these exact
code points; non-ASCII ones are written as escapes). -/
def greetReplyText : String :=
  "\u00e0\u00a6\u00b9\u00e0\u00a6\u00be\u00e0\u00a6\u2021! \u00e0\u00a6\u2020\u00e0\u00a6\u00ae\u00e0\u00a6\u00bf \u00e0\u00a6\u00a4\u00e0\u00a7\u2039\u00e0\u00a6\u00ae\u00e0\u00a6\u00be\u00e0\u00a6\u00b0 \u00e0\u00a6\u203a\u00e0\u00a7\u2039\u00e0\u00a6\u0178\u00e0\u00a7\u00e0\u00a6\u0178 Jarvis \u00e2\u20ac\u201d \u00e0\u00a6\u2022\u00e0\u00a6\u00bf \u00e0\u00a6\u00ae\u00e0\u00a7\u00e0\u00a6\u00af\u00e0\u00a6\u00be\u00e0\u00a6\u0153 \u00e0\u00a6\u2022\u00e0\u00a6\u00b0\u00e0\u00a6\u00ac\u00e0\u00a7\u2021\u00e0\u00a6\u00a8 \u00e0\u00a6\u2020\u00e0\u00a6\u0153?"

/-- String literal of `src/main.py` line 53: the "how are you" token (the file stores these exact
code points; non-ASCII ones are written as escapes). -/
def howToken : String :=
  "\u00e0\u00a6\u2022\u00e0\u00a7\u2021\u00e0\u00a6\u00ae\u00e0\u00a6\u00a8"

/-- String literal of `src/main.py` line 54: the fixed status reply (the file stores these exact
code points; non-ASCII ones are written as escapes). -/
def howReplyText : String :=
  "\u00e0\u00a6\u00ad\u00e0\u00a6\u00be\u00e0\u00a6\u00b2\u00e0\u00a7\u2039 \u00e0\u00a6\u2020\u00e0\u00a6\u203a\u00e0\u00a6\u00bf, \u00e0\u00a6\u00a4\u00e0\u00a7\u00e0\u00a6\u00ae\u00e0\u00a6\u00bf \u00e0\u00a6\u00ac\u00e0\u00a6\u00b2\u00e0\u00a7\u2039 \u00e0\u00a6\u2022\u00e0\u00a7\u2021\u00e0\u00a6\u00ae\u00e0\u00a6\u00a8 \u00e0\u00a6\u2020\u00e0\u00a6\u203a\u00e0\u00a7\u2039?"

/-- String literal of `src/main.py` line 57: echo template, part before the original message (the file stores these exact
code points; non-ASCII ones are written as escapes). -/
def echoPre : String :=
  "\u00e0\u00a6\u00a4\u00e0\u00a7\u2039\u00e0\u00a6\u00ae\u00e0\u00a6\u00be\u00e0\u00a6\u00b0 \u00e0\u00a6\u00ae\u00e0\u00a7\u2021\u00e0\u00a6\u00b8\u00e0\u00a7\u2021\u00e0\u00a6\u0153 \u00e0\u00a6\u201c\u00e0\u00a6\u2021\u00e0\u00a6\u00ad\u00e0\u00a6\u00be\u00e0\u00a6\u00ac\u00e0\u00a7\u2021 \u00e0\u00a6\u00b8\u00e0\u00a6\u00be\u00e0\u00a6\u0153\u00e0\u00a6\u00be\u00e0\u00a6\u00b2\u00e0\u00a6\u00be\u00e0\u00a6\u00ae: \u00c2\u00ab"

/-- String literal of `src/main.py` line 57: echo template, part between message and its reverse (the file stores these exact
code points; non-ASCII ones are written as escapes). -/
def echoMid : String :=
  "\u00c2\u00bb \u00e2\u20ac\u201d \u00e0\u00a6\u00b0\u00e0\u00a6\u00bf\u00e0\u00a6\u00ad\u00e0\u00a6\u00be\u00e0\u00a6\u00b0\u00e0\u00a7\u00e0\u00a6\u00b8 \u00e0\u00a6\u2022\u00e0\u00a6\u00b0\u00e0\u00a6\u00b2\u00e0\u00a7\u2021 \u00e0\u00a6\u00b9\u00e0\u00a7\u0178\u00e0\u00a7\u2021 \u00e0\u00a6\u2014\u00e0\u00a7\u2021\u00e0\u00a6\u00b2: \u00c2\u00ab"

/-- String literal of `src/main.py` line 57: echo template, part after the reversed message (the file stores these exact
code points; non-ASCII ones are written as escapes). -/
def echoPost : String :=
  "\u00c2\u00bb \u00f0\u0178\u02dc\u201e"

/-- String literal of `src/main.py` line 88: the fixed "weird response" sentinel returned when the nested text field is absent (the file stores these exact
code points; non-ASCII ones are written as escapes). -/
def openaiWeirdText : String :=
  "OpenAI \u00e0\u00a6\u00a5\u00e0\u00a7\u2021\u00e0\u00a6\u2022\u00e0\u00a7\u2021 \u00e0\u00a6\u2026\u00e0\u00a6\u00a6\u00e0\u00a7\u00e0\u00a6\u00ad\u00e0\u00a7\u00e0\u00a6\u00a4 \u00e0\u00a6\u00b0\u00e0\u00a7\u2021\u00e0\u00a6\u00b8\u00e0\u00a6\u00aa\u00e0\u00a6\u00a8\u00e0\u00a7\u00e0\u00a6\u00b8\u00e2\u20ac\u201d \u00e0\u00a6\u00aa\u00e0\u00a6\u00b0\u00e0\u00a7\u2021 \u00e0\u00a6\u0161\u00e0\u00a7\u2021\u00e0\u00a6\u2022 \u00e0\u00a6\u2022\u00e0\u00a6\u00b0\u00e0\u00a7\u2039\u00e0\u00a5\u00a4"


/-- Lines 46-57, `local_responder(message)`: strips and lowercases the
message, then applies the playful rules in order: empty message, greeting
tokens, the "how are you" token, and otherwise the echo template built from
the original message and its reversal `message[::-1]`. Total and
deterministic by construction, as every Lean function is. -/
def local_responder (message : String) : String :=
  let msg := pyLower (pyStrip message.data)
  if msg = [] then
    emptyReplyText
  else if containsSub greetTokenBn.data msg || containsSub "hello".data msg ||
      containsSub "hey".data msg then
    greetReplyText
  else if containsSub howToken.data msg then
    howReplyText
  else
    echoPre ++ message ++ echoMid ++ String.mk message.data.reverse ++ echoPost

/-- Lines 60-88, `openai_responder(message)`: raises (`Except.error`) when no
API key is configured (line 62) or when the HTTP status is not 200 (line 82);
on a 200 it returns `data["choices"][0]["message"]["content"].strip()`, and
when that nested field is absent the `except` on line 87 returns the fixed
"weird response" sentinel as an ordinary value. `hasKey` is the presence of
`OPENAI_API_KEY`, `status` the HTTP status, and `content` the optional nested
text field of the parsed body. -/
def openai_responder (hasKey : Bool) (status : Nat) (content : Option String) :
    Except String String :=
  if !hasKey then
    Except.error "OPENAI_API_KEY not set"
  else if status != 200 then
    Except.error "OpenAI API error"
  else
    match content with
    | some c => Except.ok (String.mk (pyStrip c.data))
    | none => Except.ok openaiWeirdText

/-- Lines 91-110, `generate_response(message)`: cache check with Python
truthiness on the returned value (line 94, so `None` and a cached `""` both
miss), the hit reply prefixed with `"(cache) "` (line 95); then the OpenAI
tier when a key is configured, any raised exception swallowed (lines 98-105);
then the local fallback (lines 108-110); every fresh value is written with
the default TTL. `remote` abstracts the outcome of `openai_responder`. -/
def generate_response (hasKey : Bool) (remote : String → Except String String)
    (cache : Cache) (now : Int) (message : String) : String × Cache :=
  let r := get_cache cache now message
  if pyTruthy r.fst then
    ("(cache) " ++ r.fst.getD "", r.snd)
  else if hasKey then
    match remote message with
    | Except.ok resp => (resp, set_cache r.snd now message resp CACHE_TTL)
    | Except.error _ =>
      let resp := local_responder message
      (resp, set_cache r.snd now message resp CACHE_TTL)
  else
    let resp := local_responder message
    (resp, set_cache r.snd now message resp CACHE_TTL)

/-- Lines 22-24: the request body of `POST /chat`. -/
structure ChatRequest where
  message : String
  user_id : String := "anon"

/-- Lines 112-125, the `POST /chat` handler: rejects a message longer than
2000 characters with HTTP 400 before any orchestration (lines 115-116);
otherwise runs `generate_response` and reports
`from_cache = get_cache(req.message) is not None`, a second cache read
performed after generation (line 121) which may itself evict an expired
entry. The deadline guard (504) and generic handler (500) cannot fire in
this total, timeless model. -/
def chat (req : ChatRequest) (hasKey : Bool) (remote : String → Except String String)
    (cache : Cache) (now : Int) : Except Nat (String × Bool) × Cache :=
  if req.message.length > 2000 then
    (Except.error 400, cache)
  else
    let g := generate_response hasKey remote cache now req.message
    let c := get_cache g.snd now req.message
    (Except.ok (g.fst, c.fst.isSome), c.snd)


/-- A fixture for concrete runs: the empty cache. -/
def emptyCache : Cache :=
  fun _ => none

/-- A fixture for concrete runs: a remote responder that always raises. -/
def failingRemote : String → Except String String :=
  fun _ => Except.error "boom"


/-- Helper: `dropWhile` of a list all of whose elements satisfy the predicate
is empty. -/
theorem dropWhileOfAll (p : Char → Bool) :
    ∀ l : List Char, (∀ c ∈ l, p c = true) → List.dropWhile p l = [] := by
  intro l
  induction l with
  | nil => intro _; rfl
  | cons c t ih =>
    intro h
    rw [List.dropWhile_cons, if_pos (h c (List.mem_cons_self c t))]
    exact ih fun d hd => h d (List.mem_cons_of_mem c hd)

/-- Helper: a nonempty contiguous substring none of whose characters satisfy
`p` survives `dropWhile p`. -/
theorem infixOfDropWhile (p : Char → Bool) (l : List Char)
    (hne : l ≠ []) (hl : ∀ c ∈ l, p c = false) :
    ∀ m : List Char, l <:+: m → l <:+: List.dropWhile p m := by
  intro m
  induction m with
  | nil => intro h; exact h
  | cons c t ih =>
    intro h
    rw [List.dropWhile_cons]
    by_cases hc : p c = true
    · rw [if_pos hc]
      rcases h with ⟨s, u, hsu⟩
      cases s with
      | nil =>
        cases l with
        | nil => exact absurd rfl hne
        | cons a l' =>
          simp only [List.nil_append, List.cons_append] at hsu
          have ha : a = c := (List.cons.injEq _ _ _ _ ▸ hsu).1
          have hfa : p a = false := hl a (List.mem_cons_self a l')
          rw [ha, hc] at hfa
          exact Bool.noConfusion hfa
      | cons b s' =>
        simp only [List.cons_append] at hsu
        have ht : s' ++ l ++ u = t := (List.cons.injEq _ _ _ _ ▸ hsu).2
        exact ih ⟨s', u, ht⟩
    · rw [if_neg hc]
      exact h

/-- Helper: reversal preserves contiguous-substring containment. -/
theorem infixOfReverseList {l m : List Char} (h : l <:+: m) :
    l.reverse <:+: m.reverse := by
  rcases h with ⟨s, u, rfl⟩
  refine ⟨u.reverse, s.reverse, ?_⟩
  simp [List.reverse_append]

/-- Helper: a list with a nonempty contiguous substring is nonempty. -/
theorem neNilOfInfixNeNil {l m : List Char} (hne : l ≠ []) (h : l <:+: m) :
    m ≠ [] := by
  rcases h with ⟨s, u, rfl⟩
  intro h0
  have h1 := List.append_eq_nil.mp h0
  have h2 := List.append_eq_nil.mp h1.1
  exact hne h2.2

/-- Helper: a nonempty, whitespace-free contiguous substring survives
`pyStrip`. -/
theorem infixOfPyStrip {l m : List Char} (hne : l ≠ [])
    (hl : ∀ c ∈ l, pyWhitespace c = false) (h : l <:+: m) :
    l <:+: pyStrip m := by
  have h1 := infixOfDropWhile pyWhitespace l hne hl m h
  have h2 := infixOfReverseList h1
  have hne' : l.reverse ≠ [] := by
    intro h0
    exact hne (by simpa using congrArg List.reverse h0)
  have hl' : ∀ c ∈ l.reverse, pyWhitespace c = false := fun c hc =>
    hl c (List.mem_reverse.mp hc)
  have h3 := infixOfDropWhile pyWhitespace l.reverse hne' hl' _ h2
  have h4 := infixOfReverseList h3
  simpa [pyStrip] using h4

/-- Helper: every branch of `local_responder` yields a nonempty string. -/
theorem local_responder_ne_empty (m : String) : local_responder m ≠ "" := by
  intro h
  simp only [local_responder] at h
  split at h
  · exact absurd h (by decide)
  · split at h
    · exact absurd h (by decide)
    · split at h
      · exact absurd h (by decide)
      · have hlen := congrArg String.length h
        simp only [String.length_append] at hlen
        have h1 : 0 < echoPre.length := by decide
        have h2 : String.length "" = 0 := by decide
        omega

/-- Helper: reading back a key just written with `set_cache`, at an instant
not past the stored expiry, hits and leaves the cache unchanged. -/
theorem get_cache_set_fresh (cache : Cache) (k v : String) (ttl now now' : Int)
    (h : now' ≤ now + ttl) :
    get_cache (set_cache cache now k v ttl) now' k
      = (some v, set_cache cache now k v ttl) := by
  have hn : ¬ (now' > now + ttl) := by omega
  simp [get_cache, set_cache, hn]

/-- C5: for every key `k`, value `v` and `ttl > 0`, `set_cache k v ttl`
followed by `get_cache k` at any instant not later than the stored expiry
returns exactly `v`. -/
theorem set_then_get (cache : Cache) (k v : String) (ttl now now' : Int)
    (httl : 0 < ttl) (hfresh : now' ≤ now + ttl) :
    (get_cache (set_cache cache now k v ttl) now' k).fst = some v := by
  rw [get_cache_set_fresh cache k v ttl now now' hfresh]

/-- Witness for C5 at a concrete instance. -/
theorem set_then_get_witness :
    (0 : Int) < 60 ∧ (45 : Int) ≤ 0 + 60 ∧
    (get_cache (set_cache emptyCache 0 "q" "a" 60) 45 "q").fst = some "a" :=
  ⟨by decide, by decide, set_then_get emptyCache "q" "a" 60 0 45 (by decide) (by decide)⟩

/-- C6: after `set_cache`, a `get_cache` strictly past the stored expiry
returns `None` and removes the entry, so a raw lookup of the key in the
resulting cache finds nothing. -/
theorem set_then_expired_get (cache : Cache) (k v : String) (ttl now now' : Int)
    (hexp : now + ttl < now') :
    (get_cache (set_cache cache now k v ttl) now' k).fst = none ∧
    (get_cache (set_cache cache now k v ttl) now' k).snd k = none := by
  have hgt : now' > now + ttl := hexp
  constructor <;> simp [get_cache, set_cache, hgt]

/-- Witness for C6 at a concrete instance. -/
theorem set_then_expired_get_witness :
    (0 : Int) + 60 < 61 ∧
    ((get_cache (set_cache emptyCache 0 "q" "a" 60) 61 "q").fst = none ∧
      (get_cache (set_cache emptyCache 0 "q" "a" 60) 61 "q").snd "q" = none) :=
  ⟨by decide, set_then_expired_get emptyCache "q" "a" 60 0 61 (by decide)⟩

/-- C9: a cached empty string is returned by `get_cache` as a genuine hit,
yet `generate_response`'s truthiness test on the cached value treats it as a
miss: the reply is recomputed and the entry overwritten with the fresh value
under the default TTL. -/
theorem empty_cached_value_is_miss (cache : Cache) (k : String) (e now : Int)
    (remote : String → Except String String)
    (hk : cache k = some ("", e)) (hfresh : now ≤ e) :
    (get_cache cache now k).fst = some "" ∧
    (generate_response false remote cache now k).fst = local_responder k ∧
    (generate_response false remote cache now k).snd k
      = some (local_responder k, now + CACHE_TTL) := by
  have hn : ¬ (now > e) := by omega
  refine ⟨?_, ?_, ?_⟩ <;>
    simp [generate_response, get_cache, set_cache, hk, hn, pyTruthy]

/-- Witness for C9 at a concrete instance. -/
theorem empty_cached_value_is_miss_witness :
    (fun s => if s = "q" then some ("", 100) else none : Cache) "q" = some ("", 100) ∧
    (5 : Int) ≤ 100 ∧
    ((get_cache (fun s => if s = "q" then some ("", 100) else none) 5 "q").fst = some "" ∧
      (generate_response false failingRemote
          (fun s => if s = "q" then some ("", 100) else none) 5 "q").fst
        = local_responder "q" ∧
      (generate_response false failingRemote
          (fun s => if s = "q" then some ("", 100) else none) 5 "q").snd "q"
        = some (local_responder "q", 5 + CACHE_TTL)) :=
  ⟨by decide, by decide,
    empty_cached_value_is_miss (fun s => if s = "q" then some ("", 100) else none)
      "q" 100 5 failingRemote (by decide) (by decide)⟩

/-- C10: reads are frame-preserving: a non-expired `get_cache` hit returns
the cache unchanged, `generate_response` performs no write on the hit path,
and any `get_cache` leaves every key other than the queried one untouched. -/
theorem cache_read_frame (cache : Cache) (k v : String) (e now : Int)
    (hasKey : Bool) (remote : String → Except String String) :
    (cache k = some (v, e) → now ≤ e → (get_cache cache now k).snd = cache) ∧
    (cache k = some (v, e) → now ≤ e → v ≠ "" →
      (generate_response hasKey remote cache now k).snd = cache) ∧
    (∀ k', k' ≠ k → (get_cache cache now k).snd k' = cache k') := by
  refine ⟨?_, ?_, ?_⟩
  · intro hk hfresh
    have hn : ¬ (now > e) := by omega
    simp [get_cache, hk, hn]
  · intro hk hfresh hv
    have hn : ¬ (now > e) := by omega
    simp [generate_response, get_cache, hk, hn, pyTruthy, hv]
  · intro k' hk'
    cases hck : cache k with
    | none => simp [get_cache, hck]
    | some p =>
      obtain ⟨value, expiry⟩ := p
      by_cases hx : now > expiry
      · simp [get_cache, hck, hx, hk']
      · simp [get_cache, hck, hx]

/-- Witness for C10 at a concrete instance. -/
theorem cache_read_frame_witness :
    (fun s => if s = "q" then some ("a", 100) else none : Cache) "q" = some ("a", 100) ∧
    (5 : Int) ≤ 100 ∧ "a" ≠ "" ∧ "z" ≠ "q" ∧
    (get_cache (fun s => if s = "q" then some ("a", 100) else none) 5 "q").snd
      = (fun s => if s = "q" then some ("a", 100) else none) ∧
    (generate_response false failingRemote
        (fun s => if s = "q" then some ("a", 100) else none) 5 "q").snd
      = (fun s => if s = "q" then some ("a", 100) else none) ∧
    (get_cache (fun s => if s = "q" then some ("a", 100) else none) 5 "q").snd "z"
      = (fun s => if s = "q" then some ("a", 100) else none) "z" :=
  ⟨by decide, by decide, by decide, by decide,
    (cache_read_frame (fun s => if s = "q" then some ("a", 100) else none)
      "q" "a" 100 5 false failingRemote).1 (by decide) (by decide),
    (cache_read_frame (fun s => if s = "q" then some ("a", 100) else none)
      "q" "a" 100 5 false failingRemote).2.1 (by decide) (by decide) (by decide),
    (cache_read_frame (fun s => if s = "q" then some ("a", 100) else none)
      "q" "a" 100 5 false failingRemote).2.2 "z" (by decide)⟩



/-- C7: `local_responder` is a total function (total and deterministic by
construction), its rules fire in priority order, any whitespace-only (hence
also empty) message yields the fixed "did not hear anything" reply, and any
message containing the greeting token "hello" — even one also containing
later rules' tokens — yields the fixed greeting reply. -/
theorem local_responder_rules (m : String) :
    ((∀ c ∈ m.data, pyWhitespace c = true) → local_responder m = emptyReplyText) ∧
    ("hello".data <:+: m.data → local_responder m = greetReplyText) := by
  constructor
  · intro hws
    have h1 : List.dropWhile pyWhitespace m.data = [] := dropWhileOfAll _ _ hws
    have h2 : pyStrip m.data = [] := by simp [pyStrip, h1]
    simp [local_responder, h2, pyLower]
  · intro hh
    have hne : ("hello".data : List Char) ≠ [] := by decide
    have hws : ∀ c ∈ "hello".data, pyWhitespace c = false := by decide
    have h1 : "hello".data <:+: pyStrip m.data := infixOfPyStrip hne hws hh
    have hmap := h1.map Char.toLower
    have hfix : List.map Char.toLower "hello".data = "hello".data := by decide
    have h2 : "hello".data <:+: pyLower (pyStrip m.data) := by
      unfold pyLower
      rw [hfix] at hmap
      exact hmap
    have hne2 : pyLower (pyStrip m.data) ≠ [] := neNilOfInfixNeNil hne h2
    have hcs : containsSub "hello".data (pyLower (pyStrip m.data)) = true := by
      simp [containsSub, h2]
    simp [local_responder, hne2, hcs]

/-- Witness for C7 at concrete instances: a whitespace-only message, and a
message containing both "hello" and the later-priority "how are you" token. -/
theorem local_responder_rules_witness :
    ((∀ c ∈ (" \t ").data, pyWhitespace c = true) ∧
      local_responder " \t " = emptyReplyText) ∧
    ("hello".data <:+: ("say hello " ++ howToken).data ∧
      local_responder ("say hello " ++ howToken) = greetReplyText) :=
  ⟨⟨by decide, (local_responder_rules " \t ").1 (by decide)⟩,
    ⟨by decide, (local_responder_rules ("say hello " ++ howToken)).2 (by decide)⟩⟩

/-- C3: on a cache miss with the remote tier configured, a remote failure is
swallowed, never surfaced: the reply is exactly `local_responder`'s output for
the message, and that value is written to the cache with the default TTL. -/
theorem remote_failure_falls_back (cache : Cache) (now : Int) (m e : String)
    (remote : String → Except String String)
    (hmiss : pyTruthy (get_cache cache now m).fst = false)
    (hfail : remote m = Except.error e) :
    (generate_response true remote cache now m).fst = local_responder m ∧
    (generate_response true remote cache now m).snd m
      = some (local_responder m, now + CACHE_TTL) := by
  constructor <;> simp [generate_response, hmiss, hfail, set_cache]

/-- Witness for C3 at a concrete instance. -/
theorem remote_failure_falls_back_witness :
    pyTruthy (get_cache emptyCache 0 "hi").fst = false ∧
    failingRemote "hi" = Except.error "boom" ∧
    ((generate_response true failingRemote emptyCache 0 "hi").fst = local_responder "hi" ∧
      (generate_response true failingRemote emptyCache 0 "hi").snd "hi"
        = some (local_responder "hi", 0 + CACHE_TTL)) :=
  ⟨rfl, rfl, remote_failure_falls_back emptyCache 0 "hi" "boom" failingRemote rfl rfl⟩

/-- C4 counterexample: with a 200 status whose parsed body lacks the expected
nested text field, `openai_responder` does not fail — it returns the fixed
sentinel as an ordinary success value, indistinguishable from a real
completion string. -/
theorem openai_malformed_ok_sentinel :
    openai_responder true 200 none = Except.ok openaiWeirdText := rfl

/-- C4 amended: on a success status with the expected nested field absent,
`openai_responder` returns the fixed "weird response" sentinel as an ordinary
success string (not a failure), and the orchestrator consequently caches it
with the default TTL like any other fresh success. -/
theorem openai_malformed_sentinel_cached (cache : Cache) (now : Int) (m : String)
    (hmiss : pyTruthy (get_cache cache now m).fst = false) :
    (generate_response true (fun _ => openai_responder true 200 none) cache now m).fst
      = openaiWeirdText ∧
    (generate_response true (fun _ => openai_responder true 200 none) cache now m).snd m
      = some (openaiWeirdText, now + CACHE_TTL) := by
  constructor <;> simp [generate_response, openai_responder, hmiss, set_cache]

/-- Witness for the amended C4 at a concrete instance. -/
theorem openai_malformed_sentinel_cached_witness :
    pyTruthy (get_cache emptyCache 0 "what").fst = false ∧
    ((generate_response true (fun _ => openai_responder true 200 none)
          emptyCache 0 "what").fst = openaiWeirdText ∧
      (generate_response true (fun _ => openai_responder true 200 none)
          emptyCache 0 "what").snd "what"
        = some (openaiWeirdText, 0 + CACHE_TTL)) :=
  ⟨rfl, openai_malformed_sentinel_cached emptyCache 0 "what" rfl⟩

/-- C2: code evaluation at the failing input. On an empty cache with no
remote configured, the very first "Hello" request — whose reply is freshly
computed by the local tier, not retrieved — is answered with
`from_cache = true`, because `chat` computes the flag by re-reading the cache
after `generate_response` has already stored the fresh value (line 121). -/
theorem fresh_compute_flagged_from_cache :
    (chat ⟨"Hello", "anon"⟩ false failingRemote emptyCache 0).fst
      = Except.ok (local_responder "Hello", true) := rfl

/-- C1 counterexample: repeating "Hello" immediately on an empty cache with
no remote, the second (cache-hit) reply is the first reply prefixed with
"(cache) " (line 95), hence not equal to the first reply, although it is
flagged `from_cache = true`. -/
theorem repeat_hit_reply_differs :
    (chat ⟨"Hello", "anon"⟩ false failingRemote emptyCache 0).fst
      = Except.ok (greetReplyText, true) ∧
    (chat ⟨"Hello", "anon"⟩ false failingRemote
        (chat ⟨"Hello", "anon"⟩ false failingRemote emptyCache 0).snd 0).fst
      = Except.ok ("(cache) " ++ greetReplyText, true) ∧
    "(cache) " ++ greetReplyText ≠ greetReplyText :=
  ⟨rfl, rfl, by decide⟩

/-- C1 amended: for a message that misses the cache, with no remote
configured, the second call within the TTL window replies with the first
call's reply prefixed by "(cache) " and is flagged `from_cache = true` (the
first call also carries `from_cache = true` — the flag the code computes by
re-reading the cache after generation). -/
theorem repeat_hit_prefixed_reply (cache : Cache) (m : String) (n1 n2 : Int)
    (remote : String → Except String String)
    (hlen : m.length ≤ 2000) (hmiss : cache m = none)
    (hwin : n2 ≤ n1 + CACHE_TTL) :
    (chat ⟨m, "anon"⟩ false remote cache n1).fst
      = Except.ok (local_responder m, true) ∧
    (chat ⟨m, "anon"⟩ false remote (chat ⟨m, "anon"⟩ false remote cache n1).snd n2).fst
      = Except.ok ("(cache) " ++ local_responder m, true) := by
  have hlen' : ¬ (m.length > 2000) := by omega
  have hgc : get_cache cache n1 m = (none, cache) := by simp [get_cache, hmiss]
  have hmiss' : pyTruthy (get_cache cache n1 m).fst = false := by
    simp [hgc, pyTruthy]
  have hTTL : CACHE_TTL = 60 := rfl
  have hg1 : generate_response false remote cache n1 m
      = (local_responder m, set_cache cache n1 m (local_responder m) CACHE_TTL) := by
    simp [generate_response, hgc, pyTruthy]
  have hget1 : get_cache (set_cache cache n1 m (local_responder m) CACHE_TTL) n1 m
      = (some (local_responder m), set_cache cache n1 m (local_responder m) CACHE_TTL) :=
    get_cache_set_fresh _ _ _ _ _ _ (by omega)
  have hchat1 : chat ⟨m, "anon"⟩ false remote cache n1
      = (Except.ok (local_responder m, true),
          set_cache cache n1 m (local_responder m) CACHE_TTL) := by
    simp [chat, hlen', hg1, hget1]
  refine ⟨by rw [hchat1], ?_⟩
  rw [hchat1]
  have hget2 : get_cache (set_cache cache n1 m (local_responder m) CACHE_TTL) n2 m
      = (some (local_responder m), set_cache cache n1 m (local_responder m) CACHE_TTL) :=
    get_cache_set_fresh _ _ _ _ _ _ hwin
  have hv := local_responder_ne_empty m
  have hg2 : generate_response false remote
        (set_cache cache n1 m (local_responder m) CACHE_TTL) n2 m
      = ("(cache) " ++ local_responder m,
          set_cache cache n1 m (local_responder m) CACHE_TTL) := by
    simp [generate_response, hget2, pyTruthy, hv]
  simp [chat, hlen', hg2, hget2]

/-- Witness for the amended C1 at a concrete instance. -/
theorem repeat_hit_prefixed_reply_witness :
    ("Hi all".length ≤ 2000 ∧ emptyCache "Hi all" = none ∧
      (30 : Int) ≤ 0 + CACHE_TTL) ∧
    ((chat ⟨"Hi all", "anon"⟩ false failingRemote emptyCache 0).fst
        = Except.ok (local_responder "Hi all", true) ∧
      (chat ⟨"Hi all", "anon"⟩ false failingRemote
          (chat ⟨"Hi all", "anon"⟩ false failingRemote emptyCache 0).snd 30).fst
        = Except.ok ("(cache) " ++ local_responder "Hi all", true)) :=
  ⟨⟨by decide, rfl, by decide⟩,
    repeat_hit_prefixed_reply emptyCache "Hi all" 0 30 failingRemote
      (by decide) rfl (by decide)⟩

/-- C8: a 2000-character message passes the length gate and is orchestrated
normally, while a 2001-character message is rejected with HTTP 400 and the
cache is returned untouched — no orchestration side effect at all. -/
theorem length_limit (m u : String) (hasKey : Bool)
    (remote : String → Except String String) (cache : Cache) (now : Int) :
    (m.length = 2000 →
      (chat ⟨m, u⟩ hasKey remote cache now).fst
        = Except.ok ((generate_response hasKey remote cache now m).fst,
            (get_cache (generate_response hasKey remote cache now m).snd now m).fst.isSome)) ∧
    (m.length = 2001 →
      (chat ⟨m, u⟩ hasKey remote cache now).fst = Except.error 400 ∧
      (chat ⟨m, u⟩ hasKey remote cache now).snd = cache) := by
  constructor
  · intro hlen
    have h : ¬ (m.length > 2000) := by omega
    simp [chat, h]
  · intro hlen
    have h : m.length > 2000 := by omega
    constructor <;> simp [chat, h]

/-- Witness for C8 with concrete messages of 2000 and 2001 characters. -/
theorem length_limit_witness :
    ((String.mk (List.replicate 2000 'a')).length = 2000 ∧
      (chat ⟨String.mk (List.replicate 2000 'a'), "anon"⟩ false failingRemote
          emptyCache 0).fst
        = Except.ok ((generate_response false failingRemote emptyCache 0
              (String.mk (List.replicate 2000 'a'))).fst,
            (get_cache (generate_response false failingRemote emptyCache 0
                (String.mk (List.replicate 2000 'a'))).snd 0
              (String.mk (List.replicate 2000 'a'))).fst.isSome)) ∧
    ((String.mk (List.replicate 2001 'a')).length = 2001 ∧
      (chat ⟨String.mk (List.replicate 2001 'a'), "anon"⟩ false failingRemote
          emptyCache 0).fst = Except.error 400 ∧
      (chat ⟨String.mk (List.replicate 2001 'a'), "anon"⟩ false failingRemote
          emptyCache 0).snd = emptyCache) := by
  have h1 : (String.mk (List.replicate 2000 'a')).length = 2000 := by
    rw [String.length_mk, List.length_replicate]
  have h2 : (String.mk (List.replicate 2001 'a')).length = 2001 := by
    rw [String.length_mk, List.length_replicate]
  exact ⟨⟨h1, (length_limit (String.mk (List.replicate 2000 'a')) "anon" false
        failingRemote emptyCache 0).1 h1⟩,
    ⟨h2, (length_limit (String.mk (List.replicate 2001 'a')) "anon" false
        failingRemote emptyCache 0).2 h2⟩⟩


end JarvisLite
